import Mathlib

/-!
# Request context of `pkg/request/context.go`

A shallow embedding of `RequestContextImpl`, its accessors and predicates,
the body helpers `JSON` / `JSONV`, and the constructor `NewRequestContext`.

Conventions of the embedding:

* a Go pointer field is an `Option` (`none` is the nil pointer), and a
  dereference of a nil pointer is the result `Except.error Panic.nilDereference`;
* a Go `interface{}` value read from a `context.Context` is a value of `Any`,
  where `Any.nil` is the nil interface, which is what `Value` yields for a key
  that was never set;
* a Go `error` result is an `Option`: `none` is the nil error;
* effects are passed explicitly: the messages given to `logger.Error` are
  returned in a list, and the body stream, the destination and the
  process-wide validator `V` are threaded through `BodyState`.
-/

namespace WebApp

/-! ## Data model -/

/-- A `uuid.UUID` value: sixteen bytes, read as one 128-bit number. -/
structure UUID where
  val : Fin (2 ^ 128)
  deriving DecidableEq, Repr

/-- A `jwt.Token` value of the JWT library. The request context only stores and
returns it, so the fields kept are the plain-data ones. -/
structure Token where
  Raw : String
  Signature : String
  Valid : Bool
  deriving DecidableEq, Repr

/-- Modelled from the spec: the type `auth.JWTClaims` of `pkg/auth`, which is not
among the sources. It is a structured payload carrying at minimum a `role`
field, a string with observed values "user" and "admin", and any other claims
defined by the token scheme. -/
structure JWTClaims where
  Role : String
  Other : List (String × String)
  deriving DecidableEq, Repr

/-- Modelled from the spec: the keys of `pkg/constants`, which is not among the
sources. They are the four well-known keys under which the upstream middleware
publishes the request id, the authenticated flag, the token and the claims. -/
inductive ContextKey where
  | ContextKeyRequestID
  | ContextKeyAuthenticated
  | ContextKeyJWTToken
  | ContextKeyJWTClaims
  deriving DecidableEq, Repr

/-- A Go `interface{}` value as `NewRequestContext` can observe it: the nil
interface, a value of one of the four dynamic types it asserts, or a value of
any other dynamic type (named by `typeName`; this includes pointers such as
`*jwt.Token`, for which the assertion to `jwt.Token` fails). -/
inductive Any where
  | nil
  | uuid (u : UUID)
  | bool (b : Bool)
  | jwtToken (t : Token)
  | jwtClaims (c : JWTClaims)
  | other (typeName : String)
  deriving DecidableEq, Repr

/-- The type assertion `v.(uuid.UUID)` in its comma-ok form: `none` is `ok = false`. -/
def Any.assertUUID : Any → Option UUID
  | .uuid u => some u
  | _ => none

/-- The type assertion `v.(bool)` in its comma-ok form: the value and `ok`. When
the assertion fails the value is the zero value `false`. -/
def Any.assertBool : Any → Bool × Bool
  | .bool b => (b, true)
  | _ => (false, false)

/-- The type assertion `v.(jwt.Token)` in its comma-ok form: `none` is `ok = false`. -/
def Any.assertToken : Any → Option Token
  | .jwtToken t => some t
  | _ => none

/-- The type assertion `v.(auth.JWTClaims)` in its comma-ok form: `none` is `ok = false`. -/
def Any.assertClaims : Any → Option JWTClaims
  | .jwtClaims c => some c
  | _ => none

/-- A `context.Context`, seen through its only reading method `Value`. A key that
was never set yields the nil interface. -/
structure Context where
  Value : ContextKey → Any

/-- A `zap.Field`: a key and a rendered value. -/
abbrev Field := String × String

/-- A `*zap.Logger`, kept as the contextual fields it carries. -/
structure Logger where
  fields : List Field
  deriving DecidableEq, Repr

/-- The method `logger.With(fields...)`: a child logger carrying the extra fields. -/
def Logger.With (l : Logger) (fs : List Field) : Logger :=
  { fields := l.fields ++ fs }

/-- An `*http.Request`, kept as its processing context. The state of its `Body`
stream is mutable and lives in `BodyState`. -/
structure Request where
  ctx : Context

/-- The method `r.Context()`. -/
def Request.Context (r : Request) : Context := r.ctx

/-- The struct `RequestContextImpl`. The pointer fields `id`, `req`, `token` and
`claims` are options; `A` is the type of the `interfaces.App` handle. -/
structure RequestContextImpl (A : Type) where
  id : Option UUID
  app : A
  logger : Logger
  req : Option Request
  authenticated : Bool
  token : Option Token
  claims : Option JWTClaims

/-- A run-time fault of the Go program. -/
inductive Panic where
  | nilDereference
  deriving DecidableEq, Repr

/-- The dereference `*p` (or a field selection through `p`) of a pointer. -/
def deref {α : Type} : Option α → Except Panic α
  | some a => .ok a
  | none => .error .nilDereference

/-! ## Accessors and predicates -/

variable {A : Type}

/-- The method `ID`: `return *r.id`. -/
def RequestContextImpl.ID (r : RequestContextImpl A) : Except Panic UUID :=
  deref r.id

/-- The method `App`: `return r.app`. -/
def RequestContextImpl.App (r : RequestContextImpl A) : A :=
  r.app

/-- The method `Logger`: `return r.logger`. -/
def RequestContextImpl.Logger (r : RequestContextImpl A) : Logger :=
  r.logger

/-- The method `Req`: `return r.req`. -/
def RequestContextImpl.Req (r : RequestContextImpl A) : Option Request :=
  r.req

/-- The method `Authenticated`: `return r.authenticated`. -/
def RequestContextImpl.Authenticated (r : RequestContextImpl A) : Bool :=
  r.authenticated

/-- The method `IsUser`:
`return r.authenticated && r.claims.Role == "user" || r.claims.Role == "admin"`.
In Go `&&` binds tighter than `||` and both short-circuit, so the left operand
of `||` is `r.authenticated && r.claims.Role == "user"`, and `r.claims` is
dereferenced for the right operand whenever the left one is false. -/
def RequestContextImpl.IsUser (r : RequestContextImpl A) : Except Panic Bool := do
  let lhs ←
    if r.authenticated then do
      let c ← deref r.claims
      pure (decide (c.Role = "user"))
    else
      pure false
  if lhs then
    pure true
  else do
    let c ← deref r.claims
    pure (decide (c.Role = "admin"))

/-- The method `IsAdmin`: `return r.authenticated && r.claims.Role == "admin"`.
The right operand is evaluated only when `r.authenticated` is true. -/
def RequestContextImpl.IsAdmin (r : RequestContextImpl A) : Except Panic Bool := do
  if r.authenticated then do
    let c ← deref r.claims
    pure (decide (c.Role = "admin"))
  else
    pure false

/-- The method `Token`: `return r.token`. -/
def RequestContextImpl.Token (r : RequestContextImpl A) : Option Token :=
  r.token

/-- The method `Claims`: `return r.claims`. -/
def RequestContextImpl.Claims (r : RequestContextImpl A) : Option JWTClaims :=
  r.claims

/-! ## Body helpers -/

/-- The mutable state the body helpers act on: what is left of the request's
`Body` stream, the contents of the destination `dest`, and the state of the
process-wide validator `V`. -/
structure BodyState (β δ ν : Type) where
  Body : β
  dest : δ
  V : ν

/-- The method `JSON`. The call `json.NewDecoder(body).Decode(dest)` is the given
function `decode`: from the stream and the destination it yields the error (or
nil), the stream left over and the destination as filled in. Selecting `Body`
through a nil `r.req` faults. -/
def RequestContextImpl.JSON {β δ ν ε : Type} (decode : β → δ → Option ε × β × δ)
    (r : RequestContextImpl A) (w : BodyState β δ ν) :
    Except Panic (Option ε × BodyState β δ ν) := do
  let _ ← deref r.Req
  let (res, body, dest) := decode w.Body w.dest
  let w1 : BodyState β δ ν := { Body := body, dest := dest, V := w.V }
  match res with
  | some err => pure (some err, w1)
  | none => pure (none, w1)

/-- The method `JSONV`. The call `V.Struct(dest)` is the given function `Struct`:
from the validator's state and the destination it yields the error (or nil)
and the validator's next state. -/
def RequestContextImpl.JSONV {β δ ν ε : Type} (decode : β → δ → Option ε × β × δ)
    (Struct : ν → δ → Option ε × ν)
    (r : RequestContextImpl A) (w : BodyState β δ ν) :
    Except Panic (Option ε × BodyState β δ ν) := do
  let (res, w1) ← r.JSON decode w
  match res with
  | some err => pure (some err, w1)
  | none =>
    let (vres, v1) := Struct w1.V w1.dest
    let w2 : BodyState β δ ν := { Body := w1.Body, dest := w1.dest, V := v1 }
    match vres with
    | some err => pure (some err, w2)
    | none => pure (none, w2)

/-! ## Construction -/

/-- The message of the error returned when the request-id key yields nil. -/
def errRequestIDNotPresent : String :=
  "request id not present in the request context, middleware not configured"

/-- The message of the error returned when the request id is not a `uuid.UUID`. -/
def errRequestIDNotUUID : String :=
  "unable to extract request id as a UUID"

/-- The message logged when the authenticated flag is not a `bool`. -/
def msgAuthenticated : String :=
  "Unable to extract 'authenticated' bool field from the request context."

/-- The message logged when the token is not a `jwt.Token`. -/
def msgJWTToken : String :=
  "Unable to extract 'jwt_token' from the request context."

/-- The message logged when the claims are not an `auth.JWTClaims`. -/
def msgJWTClaims : String :=
  "Unable to extract 'jwt_claims' from the request context."

/-- What a call of `NewRequestContext` produces: its two results `ctx` (a pointer,
`none` is nil) and `err` (`none` is nil), and the messages it gave to
`logger.Error`, in order. -/
structure NewResult (A : Type) where
  ctx : Option (RequestContextImpl A)
  err : Option String
  logged : List String

/-- The function `NewRequestContext`. The helper `logging.ZapFieldsFromContext`
of `pkg/logging` is not among the sources and is the parameter
`zapFieldsFromContext`. The arguments `logger` and `r` are non-nil pointers. -/
def NewRequestContext (zapFieldsFromContext : Context → List Field)
    (app : A) (logger : Logger) (r : Request) : NewResult A :=
  if r.Context.Value .ContextKeyRequestID = Any.nil then
    { ctx := none, err := some errRequestIDNotPresent, logged := [] }
  else
    match (r.Context.Value .ContextKeyRequestID).assertUUID with
    | none => { ctx := none, err := some errRequestIDNotUUID, logged := [] }
    | some reqID =>
      let (authenticated, ok) := (r.Context.Value .ContextKeyAuthenticated).assertBool
      let log0 : List String := if ok then [] else [msgAuthenticated]
      let (token, claims, log1) : Option Token × Option JWTClaims × List String :=
        if authenticated then
          let (token, logT) : Option Token × List String :=
            match (r.Context.Value .ContextKeyJWTToken).assertToken with
            | none => (none, [msgJWTToken])
            | some t => (some t, [])
          let (claims, logC) : Option JWTClaims × List String :=
            match (r.Context.Value .ContextKeyJWTClaims).assertClaims with
            | none => (none, [msgJWTClaims])
            | some c => (some c, [])
          (token, claims, logT ++ logC)
        else
          (none, none, [])
      let fields := zapFieldsFromContext r.Context
      { ctx := some
          { id := some reqID
            app := app
            logger := logger.With fields
            req := some r
            authenticated := authenticated
            token := token
            claims := claims }
        err := none
        logged := log0 ++ log1 }

/-! ## Sample inputs -/

/-- The identifier `11111111-1111-1111-1111-111111111111`. -/
def sampleID : UUID := ⟨0x11111111111111111111111111111111⟩

/-- A sample token. -/
def sampleToken : Token := { Raw := "h.p.s", Signature := "s", Valid := true }

/-- Claims with the given role and nothing else. -/
def claimsOf (role : String) : JWTClaims := { Role := role, Other := [] }

/-- The carrier holding the four given values under the four keys. -/
def carrier (id auth tok cl : Any) : Request :=
  { ctx := { Value := fun k =>
      match k with
      | .ContextKeyRequestID => id
      | .ContextKeyAuthenticated => auth
      | .ContextKeyJWTToken => tok
      | .ContextKeyJWTClaims => cl } }

/-- A logger without fields. -/
def sampleLogger : Logger := { fields := [] }

/-- A field extraction that finds no field. -/
def noFields : Context → List Field := fun _ => []

/-- A context value with `authenticated` false and claims of role "admin". -/
def unauthenticatedAdmin : RequestContextImpl Unit :=
  { id := some sampleID
    app := ()
    logger := sampleLogger
    req := some (carrier (.uuid sampleID) (.bool false) .nil .nil)
    authenticated := false
    token := none
    claims := some (claimsOf "admin") }

/-- A context value with `authenticated` true and claims of role "user". -/
def authenticatedUser : RequestContextImpl Unit :=
  { id := some sampleID
    app := ()
    logger := sampleLogger
    req := some (carrier (.uuid sampleID) (.bool true) .nil (.jwtClaims (claimsOf "user")))
    authenticated := true
    token := none
    claims := some (claimsOf "user") }

/-- A decoder for the sample run: the body made of one opening brace is malformed and leaves the
destination as it was; any other body is decoded into the destination. In both
cases the stream is drained. -/
def sampleDecode : String → Option String → Option String × String × Option String :=
  fun body dest =>
    if body = "\x7b" then (some "unexpected EOF", "", dest) else (none, "", some body)

/-- A validation engine for the sample run: it counts its calls in its state and
rejects a destination that is empty or shorter than three characters. -/
def sampleStruct : Nat → Option String → Option String × Nat :=
  fun n dest =>
    match dest with
    | some v => (if 3 ≤ v.length then none else some "failed on the min tag", n + 1)
    | none => (some "failed on the required tag", n + 1)

/-- A context value bound to a request. -/
def sampleContext : RequestContextImpl Unit :=
  { id := some sampleID
    app := ()
    logger := sampleLogger
    req := some (carrier (.uuid sampleID) (.bool false) .nil .nil)
    authenticated := false
    token := none
    claims := none }

/-- A body state whose stream holds a malformed body and whose validator has not run. -/
def malformedBody : BodyState String (Option String) Nat :=
  { Body := "\x7b", dest := none, V := 0 }

/-! ## Shared lemmas -/

/-- With a `uuid.UUID` under the request-id key the constructor takes its last
return: the fields of the context it builds, read off the carrier. -/
theorem NewRequestContext_of_uuid (zf : Context → List Field) (app : A) (logger : Logger)
    (r : Request) (u : UUID) (h : r.Context.Value .ContextKeyRequestID = Any.uuid u) :
    ∃ c : RequestContextImpl A,
      (NewRequestContext zf app logger r).ctx = some c ∧
      (NewRequestContext zf app logger r).err = none ∧
      c.id = some u ∧
      c.authenticated = (r.Context.Value .ContextKeyAuthenticated).assertBool.1 ∧
      c.token =
        (if (r.Context.Value .ContextKeyAuthenticated).assertBool.1 = true
          then (r.Context.Value .ContextKeyJWTToken).assertToken else none) ∧
      c.claims =
        (if (r.Context.Value .ContextKeyAuthenticated).assertBool.1 = true
          then (r.Context.Value .ContextKeyJWTClaims).assertClaims else none) := by
  unfold NewRequestContext
  rw [h]
  simp only [Any.assertUUID]
  rcases hb : (r.Context.Value .ContextKeyAuthenticated).assertBool with ⟨b, ok⟩
  cases b
  · simp
  · cases ht : (r.Context.Value .ContextKeyJWTToken).assertToken <;>
      cases hc : (r.Context.Value .ContextKeyJWTClaims).assertClaims <;> simp

/-- The assertion to `bool` yields the value `true` only on the boolean `true`. -/
theorem assertBool_fst_eq_true (v : Any) : v.assertBool.1 = true ↔ v = Any.bool true := by
  cases v <;> simp [Any.assertBool]

/-- The assertion to `jwt.Token` succeeds exactly on a token value, which it yields. -/
theorem assertToken_eq_some (v : Any) (t : Token) :
    v.assertToken = some t ↔ v = Any.jwtToken t := by
  cases v <;> simp [Any.assertToken]

/-- The assertion to `auth.JWTClaims` succeeds exactly on a claims value, which it yields. -/
theorem assertClaims_eq_some (v : Any) (c : JWTClaims) :
    v.assertClaims = some c ↔ v = Any.jwtClaims c := by
  cases v <;> simp [Any.assertClaims]

/-- On a context without claims `IsUser` dereferences the nil pointer, whatever
the authenticated flag is. -/
theorem IsUser_of_nil_claims (r : RequestContextImpl A) (h : r.claims = none) :
    r.IsUser = .error .nilDereference := by
  unfold RequestContextImpl.IsUser
  rw [h]
  cases r.authenticated <;> rfl

/-- On a context without claims `IsAdmin` returns false when the authenticated
flag is false and dereferences the nil pointer when it is true. -/
theorem IsAdmin_of_nil_claims (r : RequestContextImpl A) (h : r.claims = none) :
    r.IsAdmin = if r.authenticated = true then .error .nilDereference else .ok false := by
  unfold RequestContextImpl.IsAdmin
  rw [h]
  cases r.authenticated <;> rfl

/-- On a context with claims `IsUser` returns
`(authenticated && role == "user") || role == "admin"`. -/
theorem IsUser_of_claims (r : RequestContextImpl A) (cl : JWTClaims) (h : r.claims = some cl) :
    r.IsUser =
      .ok ((r.authenticated && decide (cl.Role = "user")) || decide (cl.Role = "admin")) := by
  unfold RequestContextImpl.IsUser
  rw [h]
  cases r.authenticated <;> by_cases hu : cl.Role = "user" <;>
    simp [deref, hu, bind, Except.bind, pure, Except.pure]

/-- On a context with claims `IsAdmin` returns `authenticated && role == "admin"`. -/
theorem IsAdmin_of_claims (r : RequestContextImpl A) (cl : JWTClaims) (h : r.claims = some cl) :
    r.IsAdmin = .ok (r.authenticated && decide (cl.Role = "admin")) := by
  unfold RequestContextImpl.IsAdmin
  rw [h]
  cases r.authenticated <;> simp [deref, bind, Except.bind, pure, Except.pure]

/-! ## Construction: the request id -/

/-- C1: when the request-id key yields nil (the key is absent), whatever the
other three keys hold, `NewRequestContext` returns a nil context and the
"request id not present" error. -/
theorem NewRequestContext_missing_request_id (zf : Context → List Field) (app : A)
    (logger : Logger) (r : Request)
    (h : r.Context.Value .ContextKeyRequestID = Any.nil) :
    (NewRequestContext zf app logger r).ctx = none ∧
      (NewRequestContext zf app logger r).err = some errRequestIDNotPresent := by
  unfold NewRequestContext
  simp [h]

/-- C1 at a carrier without request id whose other three keys are well formed. -/
theorem NewRequestContext_missing_request_id_witness :
    (carrier .nil (.bool true) (.jwtToken sampleToken)
        (.jwtClaims (claimsOf "admin"))).Context.Value .ContextKeyRequestID = Any.nil ∧
      (NewRequestContext noFields () sampleLogger
        (carrier .nil (.bool true) (.jwtToken sampleToken)
          (.jwtClaims (claimsOf "admin")))).ctx = none ∧
      (NewRequestContext noFields () sampleLogger
        (carrier .nil (.bool true) (.jwtToken sampleToken)
          (.jwtClaims (claimsOf "admin")))).err = some errRequestIDNotPresent :=
  ⟨rfl, NewRequestContext_missing_request_id noFields () sampleLogger _ rfl⟩

/-- C6: when the request-id key holds a value that is not a `uuid.UUID`,
`NewRequestContext` returns a nil context and an error, and that error differs
from the one returned for any carrier whose request-id key is absent. -/
theorem NewRequestContext_invalid_request_id (zf : Context → List Field) (app : A)
    (logger : Logger) (r r0 : Request)
    (hpresent : r.Context.Value .ContextKeyRequestID ≠ Any.nil)
    (hnot : ∀ u : UUID, r.Context.Value .ContextKeyRequestID ≠ Any.uuid u)
    (habsent : r0.Context.Value .ContextKeyRequestID = Any.nil) :
    (NewRequestContext zf app logger r).ctx = none ∧
      (NewRequestContext zf app logger r).err = some errRequestIDNotUUID ∧
      (NewRequestContext zf app logger r).err ≠ (NewRequestContext zf app logger r0).err := by
  have h0 : (NewRequestContext zf app logger r0).err = some errRequestIDNotPresent := by
    unfold NewRequestContext
    simp [habsent]
  have h1 : (NewRequestContext zf app logger r).ctx = none ∧
      (NewRequestContext zf app logger r).err = some errRequestIDNotUUID := by
    unfold NewRequestContext
    cases hv : r.Context.Value .ContextKeyRequestID with
    | nil => exact absurd hv hpresent
    | uuid u => exact absurd hv (hnot u)
    | bool b => simp [Any.assertUUID]
    | jwtToken t => simp [Any.assertUUID]
    | jwtClaims c => simp [Any.assertUUID]
    | other n => simp [Any.assertUUID]
  refine ⟨h1.1, h1.2, ?_⟩
  rw [h1.2, h0]
  decide

/-- C6 at a carrier whose request id is a string, against the empty carrier. -/
theorem NewRequestContext_invalid_request_id_witness :
    (carrier (.other "string") (.bool true) .nil .nil).Context.Value
        .ContextKeyRequestID ≠ Any.nil ∧
      (∀ u : UUID, (carrier (.other "string") (.bool true) .nil .nil).Context.Value
        .ContextKeyRequestID ≠ Any.uuid u) ∧
      (carrier .nil .nil .nil .nil).Context.Value .ContextKeyRequestID = Any.nil ∧
      (NewRequestContext noFields () sampleLogger
        (carrier (.other "string") (.bool true) .nil .nil)).ctx = none ∧
      (NewRequestContext noFields () sampleLogger
        (carrier (.other "string") (.bool true) .nil .nil)).err = some errRequestIDNotUUID ∧
      (NewRequestContext noFields () sampleLogger
        (carrier (.other "string") (.bool true) .nil .nil)).err ≠
        (NewRequestContext noFields () sampleLogger (carrier .nil .nil .nil .nil)).err :=
  ⟨by simp [carrier, Request.Context], by simp [carrier, Request.Context], rfl,
    NewRequestContext_invalid_request_id noFields () sampleLogger
      (carrier (.other "string") (.bool true) .nil .nil) (carrier .nil .nil .nil .nil)
      (by simp [carrier, Request.Context]) (by simp [carrier, Request.Context]) rfl⟩

/-- C7: when the request-id key holds the UUID `u`, whatever the other three
keys hold, `NewRequestContext` returns a context and a nil error, and `ID()` on
that context returns `u`. -/
theorem NewRequestContext_succeeds_with_id (zf : Context → List Field) (app : A)
    (logger : Logger) (r : Request) (u : UUID)
    (h : r.Context.Value .ContextKeyRequestID = Any.uuid u) :
    ∃ c : RequestContextImpl A,
      (NewRequestContext zf app logger r).ctx = some c ∧
      (NewRequestContext zf app logger r).err = none ∧
      c.ID = .ok u := by
  obtain ⟨c, hc, he, hid, -⟩ := NewRequestContext_of_uuid zf app logger r u h
  exact ⟨c, hc, he, by simp [RequestContextImpl.ID, hid, deref]⟩

/-- C7 at a carrier whose authenticated flag, token and claims are all malformed. -/
theorem NewRequestContext_succeeds_with_id_witness :
    (carrier (.uuid sampleID) (.other "string") (.other "int")
        (.other "*auth.JWTClaims")).Context.Value .ContextKeyRequestID = Any.uuid sampleID ∧
      ∃ c : RequestContextImpl Unit,
        (NewRequestContext noFields () sampleLogger
          (carrier (.uuid sampleID) (.other "string") (.other "int")
            (.other "*auth.JWTClaims"))).ctx = some c ∧
        (NewRequestContext noFields () sampleLogger
          (carrier (.uuid sampleID) (.other "string") (.other "int")
            (.other "*auth.JWTClaims"))).err = none ∧
        c.ID = .ok sampleID :=
  ⟨rfl, NewRequestContext_succeeds_with_id noFields () sampleLogger _ sampleID rfl⟩

/-! ## Construction: the authenticated flag, the token and the claims -/

/-- C8: with a UUID request id, when the authenticated-flag key holds no boolean
(it is absent or holds a value of another type), the context built has
`Authenticated()` false and `Token()` and `Claims()` nil, whatever the token and
claims keys hold. -/
theorem NewRequestContext_flag_not_bool (zf : Context → List Field) (app : A)
    (logger : Logger) (r : Request) (u : UUID)
    (hid : r.Context.Value .ContextKeyRequestID = Any.uuid u)
    (hflag : ∀ b : Bool, r.Context.Value .ContextKeyAuthenticated ≠ Any.bool b) :
    ∃ c : RequestContextImpl A,
      (NewRequestContext zf app logger r).ctx = some c ∧
      (NewRequestContext zf app logger r).err = none ∧
      c.Authenticated = false ∧ c.Token = none ∧ c.Claims = none := by
  obtain ⟨c, hc, he, -, ha, ht, hcl⟩ := NewRequestContext_of_uuid zf app logger r u hid
  have hf : (r.Context.Value .ContextKeyAuthenticated).assertBool.1 = false := by
    cases hv : r.Context.Value .ContextKeyAuthenticated with
    | bool b => exact absurd hv (hflag b)
    | nil => rfl
    | uuid _ => rfl
    | jwtToken _ => rfl
    | jwtClaims _ => rfl
    | other _ => rfl
  rw [hf] at ha ht hcl
  exact ⟨c, hc, he, ha, by simpa [RequestContextImpl.Token] using ht,
    by simpa [RequestContextImpl.Claims] using hcl⟩

/-- C8 at a carrier without authenticated flag whose token and claims are well formed. -/
theorem NewRequestContext_flag_not_bool_witness :
    (carrier (.uuid sampleID) .nil (.jwtToken sampleToken)
        (.jwtClaims (claimsOf "admin"))).Context.Value .ContextKeyRequestID =
        Any.uuid sampleID ∧
      (∀ b : Bool, (carrier (.uuid sampleID) .nil (.jwtToken sampleToken)
        (.jwtClaims (claimsOf "admin"))).Context.Value .ContextKeyAuthenticated ≠
        Any.bool b) ∧
      ∃ c : RequestContextImpl Unit,
        (NewRequestContext noFields () sampleLogger
          (carrier (.uuid sampleID) .nil (.jwtToken sampleToken)
            (.jwtClaims (claimsOf "admin")))).ctx = some c ∧
        (NewRequestContext noFields () sampleLogger
          (carrier (.uuid sampleID) .nil (.jwtToken sampleToken)
            (.jwtClaims (claimsOf "admin")))).err = none ∧
        c.Authenticated = false ∧ c.Token = none ∧ c.Claims = none :=
  ⟨rfl, by simp [carrier, Request.Context],
    NewRequestContext_flag_not_bool noFields () sampleLogger _ sampleID rfl
      (by simp [carrier, Request.Context])⟩

/-- C9: with a UUID request id, on the context built, `Token()` is the token `t`
exactly when the authenticated flag is the boolean true and the token key holds
`t`, and `Claims()` is the claims `cl` exactly when the authenticated flag is
the boolean true and the claims key holds `cl`. Each of the two depends on its
own key only. -/
theorem NewRequestContext_token_claims (zf : Context → List Field) (app : A)
    (logger : Logger) (r : Request) (u : UUID)
    (hid : r.Context.Value .ContextKeyRequestID = Any.uuid u) :
    ∃ c : RequestContextImpl A,
      (NewRequestContext zf app logger r).ctx = some c ∧
      (NewRequestContext zf app logger r).err = none ∧
      (∀ t : Token, c.Token = some t ↔
        (r.Context.Value .ContextKeyAuthenticated = Any.bool true ∧
          r.Context.Value .ContextKeyJWTToken = Any.jwtToken t)) ∧
      (∀ cl : JWTClaims, c.Claims = some cl ↔
        (r.Context.Value .ContextKeyAuthenticated = Any.bool true ∧
          r.Context.Value .ContextKeyJWTClaims = Any.jwtClaims cl)) := by
  obtain ⟨c, hc, he, -, -, ht, hcl⟩ := NewRequestContext_of_uuid zf app logger r u hid
  refine ⟨c, hc, he, ?_, ?_⟩
  · intro t
    show c.token = some t ↔ _
    rw [ht, ← assertBool_fst_eq_true, ← assertToken_eq_some]
    by_cases hb : (r.Context.Value .ContextKeyAuthenticated).assertBool.1 = true <;> simp [hb]
  · intro cl
    show c.claims = some cl ↔ _
    rw [hcl, ← assertBool_fst_eq_true, ← assertClaims_eq_some]
    by_cases hb : (r.Context.Value .ContextKeyAuthenticated).assertBool.1 = true <;> simp [hb]

/-- C9 at an authenticated carrier with a malformed token and well-formed claims. -/
theorem NewRequestContext_token_claims_witness :
    (carrier (.uuid sampleID) (.bool true) (.other "*jwt.Token")
        (.jwtClaims (claimsOf "user"))).Context.Value .ContextKeyRequestID =
        Any.uuid sampleID ∧
      ∃ c : RequestContextImpl Unit,
        (NewRequestContext noFields () sampleLogger
          (carrier (.uuid sampleID) (.bool true) (.other "*jwt.Token")
            (.jwtClaims (claimsOf "user")))).ctx = some c ∧
        (NewRequestContext noFields () sampleLogger
          (carrier (.uuid sampleID) (.bool true) (.other "*jwt.Token")
            (.jwtClaims (claimsOf "user")))).err = none ∧
        (∀ t : Token, c.Token = some t ↔
          ((carrier (.uuid sampleID) (.bool true) (.other "*jwt.Token")
              (.jwtClaims (claimsOf "user"))).Context.Value .ContextKeyAuthenticated =
              Any.bool true ∧
            (carrier (.uuid sampleID) (.bool true) (.other "*jwt.Token")
              (.jwtClaims (claimsOf "user"))).Context.Value .ContextKeyJWTToken =
              Any.jwtToken t)) ∧
        (∀ cl : JWTClaims, c.Claims = some cl ↔
          ((carrier (.uuid sampleID) (.bool true) (.other "*jwt.Token")
              (.jwtClaims (claimsOf "user"))).Context.Value .ContextKeyAuthenticated =
              Any.bool true ∧
            (carrier (.uuid sampleID) (.bool true) (.other "*jwt.Token")
              (.jwtClaims (claimsOf "user"))).Context.Value .ContextKeyJWTClaims =
              Any.jwtClaims cl)) :=
  ⟨rfl, NewRequestContext_token_claims noFields () sampleLogger _ sampleID rfl⟩

/-! ## The role predicates -/

/-- C3: with a UUID request id, the authenticated flag true and the claims key
holding claims `cl`, the context built answers `IsAdmin()` with true exactly
when the role is "admin" and `IsUser()` with true exactly when the role is
"user" or "admin", and neither call faults. -/
theorem NewRequestContext_roles (zf : Context → List Field) (app : A)
    (logger : Logger) (r : Request) (u : UUID) (cl : JWTClaims)
    (hid : r.Context.Value .ContextKeyRequestID = Any.uuid u)
    (hauth : r.Context.Value .ContextKeyAuthenticated = Any.bool true)
    (hclaims : r.Context.Value .ContextKeyJWTClaims = Any.jwtClaims cl) :
    ∃ c : RequestContextImpl A,
      (NewRequestContext zf app logger r).ctx = some c ∧
      (NewRequestContext zf app logger r).err = none ∧
      c.IsAdmin = .ok (decide (cl.Role = "admin")) ∧
      c.IsUser = .ok (decide (cl.Role = "user" ∨ cl.Role = "admin")) := by
  obtain ⟨c, hc, he, -, ha, -, hcl⟩ := NewRequestContext_of_uuid zf app logger r u hid
  rw [hauth] at ha hcl
  rw [hclaims] at hcl
  have ha1 : c.authenticated = true := ha
  have hcl1 : c.claims = some cl := hcl
  refine ⟨c, hc, he, ?_, ?_⟩
  · rw [IsAdmin_of_claims c cl hcl1, ha1]
    simp
  · rw [IsUser_of_claims c cl hcl1, ha1]
    simp

/-- C3 at the carrier with the sample id, authenticated, role "admin". -/
theorem NewRequestContext_roles_witness :
    (carrier (.uuid sampleID) (.bool true) .nil
        (.jwtClaims (claimsOf "admin"))).Context.Value .ContextKeyRequestID =
        Any.uuid sampleID ∧
      (carrier (.uuid sampleID) (.bool true) .nil
        (.jwtClaims (claimsOf "admin"))).Context.Value .ContextKeyAuthenticated =
        Any.bool true ∧
      (carrier (.uuid sampleID) (.bool true) .nil
        (.jwtClaims (claimsOf "admin"))).Context.Value .ContextKeyJWTClaims =
        Any.jwtClaims (claimsOf "admin") ∧
      ∃ c : RequestContextImpl Unit,
        (NewRequestContext noFields () sampleLogger
          (carrier (.uuid sampleID) (.bool true) .nil
            (.jwtClaims (claimsOf "admin")))).ctx = some c ∧
        (NewRequestContext noFields () sampleLogger
          (carrier (.uuid sampleID) (.bool true) .nil
            (.jwtClaims (claimsOf "admin")))).err = none ∧
        c.IsAdmin = .ok (decide ((claimsOf "admin").Role = "admin")) ∧
        c.IsUser = .ok (decide ((claimsOf "admin").Role = "user" ∨
          (claimsOf "admin").Role = "admin")) :=
  ⟨rfl, rfl, rfl,
    NewRequestContext_roles noFields () sampleLogger _ sampleID (claimsOf "admin") rfl rfl rfl⟩

/-- With a UUID request id and the authenticated flag false, the context built
has no claims: `IsAdmin()` returns false and `IsUser()` dereferences nil. -/
theorem NewRequestContext_unauthenticated (zf : Context → List Field) (app : A)
    (logger : Logger) (r : Request) (u : UUID)
    (hid : r.Context.Value .ContextKeyRequestID = Any.uuid u)
    (hauth : r.Context.Value .ContextKeyAuthenticated = Any.bool false) :
    ∃ c : RequestContextImpl A,
      (NewRequestContext zf app logger r).ctx = some c ∧
      (NewRequestContext zf app logger r).err = none ∧
      c.Authenticated = false ∧ c.Token = none ∧ c.Claims = none ∧
      c.IsAdmin = .ok false ∧ c.IsUser = .error .nilDereference := by
  obtain ⟨c, hc, he, -, ha, ht, hcl⟩ := NewRequestContext_of_uuid zf app logger r u hid
  rw [hauth] at ha ht hcl
  have ha1 : c.authenticated = false := ha
  have hcl1 : c.claims = none := by simpa [Any.assertBool] using hcl
  have ht1 : c.token = none := by simpa [Any.assertBool] using ht
  refine ⟨c, hc, he, ha1, ht1, hcl1, ?_, IsUser_of_nil_claims c hcl1⟩
  rw [IsAdmin_of_nil_claims c hcl1, ha1]
  simp

/-- With a UUID request id, the authenticated flag true and a claims key that
holds no claims value, the context built has `authenticated` true and no
claims: `IsUser()` and `IsAdmin()` both dereference nil. -/
theorem NewRequestContext_authenticated_no_claims (zf : Context → List Field) (app : A)
    (logger : Logger) (r : Request) (u : UUID)
    (hid : r.Context.Value .ContextKeyRequestID = Any.uuid u)
    (hauth : r.Context.Value .ContextKeyAuthenticated = Any.bool true)
    (hclaims : ∀ cl : JWTClaims, r.Context.Value .ContextKeyJWTClaims ≠ Any.jwtClaims cl) :
    ∃ c : RequestContextImpl A,
      (NewRequestContext zf app logger r).ctx = some c ∧
      (NewRequestContext zf app logger r).err = none ∧
      c.Authenticated = true ∧ c.Claims = none ∧
      c.IsAdmin = .error .nilDereference ∧ c.IsUser = .error .nilDereference := by
  obtain ⟨c, hc, he, -, ha, -, hcl⟩ := NewRequestContext_of_uuid zf app logger r u hid
  rw [hauth] at ha hcl
  have ha1 : c.authenticated = true := ha
  have hn : (r.Context.Value .ContextKeyJWTClaims).assertClaims = none := by
    cases hv : r.Context.Value .ContextKeyJWTClaims with
    | jwtClaims cl => exact absurd hv (hclaims cl)
    | nil => rfl
    | uuid _ => rfl
    | bool _ => rfl
    | jwtToken _ => rfl
    | other _ => rfl
  have hcl1 : c.claims = none := by simpa [Any.assertBool, hn] using hcl
  refine ⟨c, hc, he, ha1, hcl1, ?_, IsUser_of_nil_claims c hcl1⟩
  rw [IsAdmin_of_nil_claims c hcl1, ha1]
  simp

/-- C2: at the well-formed carrier with the sample id and authenticated = false,
construction succeeds, `Authenticated()` is false, `Token()` and `Claims()` are
nil and `IsAdmin()` returns false, but `IsUser()` does not return false: it
dereferences the nil claims pointer. -/
theorem unauthenticated_IsUser_faults :
    ∃ c : RequestContextImpl Unit,
      (NewRequestContext noFields () sampleLogger
        (carrier (.uuid sampleID) (.bool false) .nil .nil)).ctx = some c ∧
      (NewRequestContext noFields () sampleLogger
        (carrier (.uuid sampleID) (.bool false) .nil .nil)).err = none ∧
      c.Authenticated = false ∧ c.Token = none ∧ c.Claims = none ∧
      c.IsAdmin = .ok false ∧
      c.IsUser = .error .nilDereference ∧ c.IsUser ≠ .ok false :=
  ⟨_, rfl, rfl, rfl, rfl, rfl, rfl, rfl, by intro h; cases h⟩

/-- C4: at the carrier with the sample id, authenticated = true, a token and no
claims, construction succeeds, but `IsUser()` and `IsAdmin()` do not return
false: both dereference the nil claims pointer. -/
theorem authenticated_no_claims_predicates_fault :
    ∃ c : RequestContextImpl Unit,
      (NewRequestContext noFields () sampleLogger
        (carrier (.uuid sampleID) (.bool true) (.jwtToken sampleToken) .nil)).ctx = some c ∧
      (NewRequestContext noFields () sampleLogger
        (carrier (.uuid sampleID) (.bool true) (.jwtToken sampleToken) .nil)).err = none ∧
      c.Claims = none ∧
      c.IsUser = .error .nilDereference ∧ c.IsAdmin = .error .nilDereference ∧
      c.IsUser ≠ .ok false ∧ c.IsAdmin ≠ .ok false :=
  ⟨_, rfl, rfl, rfl, rfl, rfl, (by intro h; cases h), (by intro h; cases h)⟩

/-- A context returned by `NewRequestContext` has its claims set only inside the
`if authenticated` block: when its claims are present, `authenticated` is true. -/
theorem NewRequestContext_claims_imply_authenticated (zf : Context → List Field) (app : A)
    (logger : Logger) (rq : Request) (c : RequestContextImpl A) (cl : JWTClaims)
    (hctx : (NewRequestContext zf app logger rq).ctx = some c)
    (hcl : c.claims = some cl) : c.authenticated = true := by
  cases hv : rq.Context.Value .ContextKeyRequestID with
  | uuid u =>
    obtain ⟨c0, hc0, -, -, ha, -, hcl0⟩ := NewRequestContext_of_uuid zf app logger rq u hv
    rw [hc0] at hctx
    cases hctx
    rw [ha]
    by_cases hb : (rq.Context.Value .ContextKeyAuthenticated).assertBool.1 = true
    · exact hb
    · rw [if_neg hb, hcl] at hcl0
      cases hcl0
  | nil =>
    unfold NewRequestContext at hctx
    simp [hv] at hctx
  | bool b =>
    unfold NewRequestContext at hctx
    simp [hv, Any.assertUUID] at hctx
  | jwtToken t =>
    unfold NewRequestContext at hctx
    simp [hv, Any.assertUUID] at hctx
  | jwtClaims c1 =>
    unfold NewRequestContext at hctx
    simp [hv, Any.assertUUID] at hctx
  | other n =>
    unfold NewRequestContext at hctx
    simp [hv, Any.assertUUID] at hctx

/-- C5, refuted as stated: on the context value with `authenticated` false and
claims of role "admin", `IsUser()` returns true, so it is not the case that
`IsUser()` is true exactly when `authenticated` holds and the role is "user" or
"admin". -/
theorem IsUser_not_gated_on_authenticated :
    unauthenticatedAdmin.claims = some (claimsOf "admin") ∧
      unauthenticatedAdmin.authenticated = false ∧
      unauthenticatedAdmin.IsUser = .ok true ∧
      ¬ (unauthenticatedAdmin.IsUser = .ok true ↔
        (unauthenticatedAdmin.authenticated = true ∧
          ((claimsOf "admin").Role = "user" ∨ (claimsOf "admin").Role = "admin"))) := by
  refine ⟨rfl, rfl, rfl, ?_⟩
  intro h
  have h1 := (h.mp rfl).1
  cases h1

/-- C5, amended: on every context value with claims present `IsUser()` returns,
without fault, true exactly when `authenticated` holds and the role is "user",
or the role is "admin"; so with `authenticated` true it is true exactly when the
role is "user" or "admin". On every such value returned by `NewRequestContext`,
`authenticated` is true and `IsUser()` is true exactly when `authenticated`
holds and the role is "user" or "admin". -/
theorem IsUser_with_claims (r : RequestContextImpl A) (cl : JWTClaims)
    (h : r.claims = some cl) :
    r.IsUser = .ok (decide ((r.authenticated = true ∧ cl.Role = "user") ∨ cl.Role = "admin")) ∧
      (r.authenticated = true →
        r.IsUser = .ok (decide (cl.Role = "user" ∨ cl.Role = "admin"))) ∧
      (∀ (zf : Context → List Field) (app : A) (logger : Logger) (rq : Request),
        (NewRequestContext zf app logger rq).ctx = some r →
          r.authenticated = true ∧
          (r.IsUser = .ok true ↔
            (r.authenticated = true ∧ (cl.Role = "user" ∨ cl.Role = "admin")))) := by
  have hu := IsUser_of_claims r cl h
  have hauth : r.authenticated = true →
      r.IsUser = .ok (decide (cl.Role = "user" ∨ cl.Role = "admin")) := by
    intro ha
    rw [hu, ha]
    simp
  refine ⟨?_, hauth, ?_⟩
  · rw [hu]
    cases r.authenticated <;> simp
  · intro zf app logger rq hctx
    have ha := NewRequestContext_claims_imply_authenticated zf app logger rq r cl hctx h
    refine ⟨ha, ?_⟩
    rw [hauth ha]
    simp [ha]

/-- C5, amended, at the context value with `authenticated` true and role "user". -/
theorem IsUser_with_claims_witness :
    authenticatedUser.claims = some (claimsOf "user") ∧
      authenticatedUser.IsUser =
        .ok (decide ((authenticatedUser.authenticated = true ∧
          (claimsOf "user").Role = "user") ∨ (claimsOf "user").Role = "admin")) ∧
      authenticatedUser.IsUser = .ok true :=
  ⟨rfl, (IsUser_with_claims authenticatedUser (claimsOf "user") rfl).1, rfl⟩

/-! ## Decoding and validating the body -/

/-- C10: on a context bound to a request, for every decoder `decode`, validation
engine `Struct` and state `w` of body, destination and validator: `JSON` returns
the decoder's result; when `JSON` returns an error, `JSONV` returns that same
error and the same state, so the validator has not run; when `JSON` returns nil,
`JSONV` returns what `Struct` returns on the decoded destination; and `JSONV`
returns nil exactly when `JSON` returns nil and `Struct` returns nil. -/
theorem JSONV_decode_then_validate {β δ ν ε : Type} (decode : β → δ → Option ε × β × δ)
    (Struct : ν → δ → Option ε × ν) (r : RequestContextImpl A) (w : BodyState β δ ν)
    (rq : Request) (hreq : r.req = some rq) :
    r.JSON decode w = .ok ((decode w.Body w.dest).1,
        { Body := (decode w.Body w.dest).2.1, dest := (decode w.Body w.dest).2.2, V := w.V }) ∧
      (∀ (e : ε) (w1 : BodyState β δ ν), r.JSON decode w = .ok (some e, w1) →
        r.JSONV decode Struct w = .ok (some e, w1) ∧ w1.V = w.V) ∧
      (∀ w1 : BodyState β δ ν, r.JSON decode w = .ok (none, w1) →
        r.JSONV decode Struct w = .ok ((Struct w1.V w1.dest).1,
          { Body := w1.Body, dest := w1.dest, V := (Struct w1.V w1.dest).2 })) ∧
      ((∃ w2 : BodyState β δ ν, r.JSONV decode Struct w = .ok (none, w2)) ↔
        ∃ w1 : BodyState β δ ν, r.JSON decode w = .ok (none, w1) ∧
          (Struct w1.V w1.dest).1 = none) := by
  have hJ : r.JSON decode w = .ok ((decode w.Body w.dest).1,
      { Body := (decode w.Body w.dest).2.1, dest := (decode w.Body w.dest).2.2, V := w.V }) := by
    unfold RequestContextImpl.JSON RequestContextImpl.Req
    rw [hreq]
    rcases hd : decode w.Body w.dest with ⟨res, body, dest⟩
    cases res <;> simp [deref, bind, Except.bind, pure, Except.pure]
  have hV : ∀ (res : Option ε) (w1 : BodyState β δ ν), r.JSON decode w = .ok (res, w1) →
      r.JSONV decode Struct w =
        match res with
        | some e => .ok (some e, w1)
        | none => .ok ((Struct w1.V w1.dest).1,
            { Body := w1.Body, dest := w1.dest, V := (Struct w1.V w1.dest).2 }) := by
    intro res w1 h
    unfold RequestContextImpl.JSONV
    rw [h]
    cases res with
    | some e => simp [bind, Except.bind, pure, Except.pure]
    | none =>
      rcases hs : Struct w1.V w1.dest with ⟨vres, v1⟩
      cases vres <;> simp [bind, Except.bind, pure, Except.pure, hs]
  refine ⟨hJ, ?_, ?_, ?_⟩
  · intro e w1 h
    refine ⟨hV _ _ h, ?_⟩
    rw [hJ] at h
    simp only [Except.ok.injEq, Prod.mk.injEq] at h
    rw [← h.2]
  · intro w1 h
    exact hV _ _ h
  · constructor
    · rintro ⟨w2, h2⟩
      cases hres : (decode w.Body w.dest).1 with
      | some e =>
        rw [hres] at hJ
        rw [hV _ _ hJ] at h2
        cases h2
      | none =>
        rw [hres] at hJ
        refine ⟨_, hJ, ?_⟩
        rw [hV _ _ hJ] at h2
        simp only [Except.ok.injEq, Prod.mk.injEq] at h2
        exact h2.1
    · rintro ⟨w1, h1, hs⟩
      refine ⟨{ Body := w1.Body, dest := w1.dest, V := (Struct w1.V w1.dest).2 }, ?_⟩
      rw [hV _ _ h1]
      simp only [hs]

/-- C10 at a malformed body: `JSON` and `JSONV` return the decoder's error and the
validator's call count stays 0. -/
theorem JSONV_decode_then_validate_witness :
    sampleContext.req = some (carrier (.uuid sampleID) (.bool false) .nil .nil) ∧
      sampleContext.JSON sampleDecode malformedBody =
        .ok (some "unexpected EOF", { Body := "", dest := none, V := 0 }) ∧
      sampleContext.JSONV sampleDecode sampleStruct malformedBody =
        .ok (some "unexpected EOF", { Body := "", dest := none, V := 0 }) :=
  ⟨rfl, rfl,
    ((JSONV_decode_then_validate sampleDecode sampleStruct sampleContext malformedBody
      (carrier (.uuid sampleID) (.bool false) .nil .nil) rfl).2.1
        "unexpected EOF" { Body := "", dest := none, V := 0 } rfl).1⟩

end WebApp
